import Mathlib

/-!
Shallow embedding of the Aaref salary-corpus admission pipeline
(`src/src/App.jsx`): device-fingerprint rate limiting (`DeviceFingerprint`),
statistical outlier detection (`detectOutliers`), friction-field trust bonus
and record creation (`handleSubmit`), community flagging (`handleFlag` guarded
by `SalaryRow`), and the admin moderation queue (`handleAction` guarded by
`AdminPage`).

Modelling conventions:
* JS number arithmetic on salaries, scores and statistics is modelled exactly
  over `ℤ` and `ℚ` (the concrete values involved are small integers and exact
  rationals, where IEEE doubles are exact).
* `Math.sqrt(variance) || 1` comparisons are stated on squares: for a
  threshold `t ≥ 0`, `|d| / (if σ = 0 then 1 else σ) > t` holds iff
  `t ^ 2 * (if σ² = 0 then 1 else σ²) < d ^ 2`, so no square roots are needed.
* `Math.round x` is `⌊x + 1/2⌋` (`jsRound`).
* The numeric form field is modelled as the already-parsed integer; the
  falsy-empty check together with `parseInt`/`isNaN`/`≤ 0` collapses to
  `salary ≤ 0`.  The unused `bonus` field is omitted.
* React `setState` updates are modelled as explicit state-passing; the order
  of the side-effecting calls inside `handleSubmit` is recorded as a list of
  `Event`s in program order.
-/

namespace Aaref

/-- JS `String.prototype.toLowerCase()` restricted to the ASCII range (all
strings compared by the app are ASCII).  Mapping `Char.toLower` over the
character data is behaviourally identical to `String.toLower` and keeps the
definition kernel-computable. -/
def lowerStr (s : String) : String := String.mk (s.data.map Char.toLower)

/-- A validation flag attached to a record.  The presentational `detail`
string is omitted; all reasoning depends only on `type` and `severity`. -/
structure Flag where
  type : String
  severity : String
deriving DecidableEq

/-- A corpus record: the objects stored in the `salaries` React state
(see `INITIAL_SALARIES` and `newEntry` in the source). -/
structure SalaryRecord where
  id : ℤ
  title : String
  company : String
  industry : String
  city : String
  experience : String
  salary : ℤ
  submitted : String
  verified : Bool
  trustScore : ℤ
  status : String
  flags : List Flag
  flagCount : ℕ
  salaryType : String
  contractType : String
  recentRaise : String
  companySize : String
deriving DecidableEq

/-- The submission form, with `salary` already parsed to an integer. -/
structure Form where
  title : String
  company : String
  industry : String
  city : String
  experience : String
  salary : ℤ
  salaryType : String
  contractType : String
  recentRaise : String
  companySize : String
deriving DecidableEq

/-- Arithmetic mean of a list of integer salaries, as an exact rational. -/
def listMean (l : List ℤ) : ℚ := (l.sum : ℚ) / (l.length : ℚ)

/-- Population variance (divide by `n`, not `n - 1`) of a list of salaries. -/
def listVariance (l : List ℤ) : ℚ :=
  ((l.map (fun s => ((s : ℚ) - listMean l) ^ 2)).sum) / (l.length : ℚ)

/-- Square of the z-score divisor `Math.sqrt(variance) || 1`: the JS `|| 1`
replaces the divisor by `1` exactly when the standard deviation is `0`
(i.e. when the variance is `0`); any nonzero standard deviation — including
one strictly between 0 and 1 — is used as is. -/
def stdDevSq (variance : ℚ) : ℚ := if variance = 0 then 1 else variance

/-- Industry z-score signal (source lines 50–57): fires only when at least 3
corpus records share the candidate's industry.  `zScore > t` is stated on
squares (`t ^ 2 * stdDevSq variance < (salary - mean) ^ 2`). -/
def industrySignal (entry : Form) (existingSalaries : List SalaryRecord) :
    List Flag × ℤ :=
  let sameIndustry := existingSalaries.filter (fun s => s.industry == entry.industry)
  if 3 ≤ sameIndustry.length then
    let v := listVariance (sameIndustry.map (·.salary))
    let d := (entry.salary : ℚ) - listMean (sameIndustry.map (·.salary))
    if 9 * stdDevSq v < d ^ 2 then ([⟨"extreme_outlier", "high"⟩], -40)
    else if (25 / 4) * stdDevSq v < d ^ 2 then ([⟨"outlier", "medium"⟩], -20)
    else ([], 0)
  else ([], 0)

/-- Experience-band envelope table (source line 60); unknown bands default to
the effectively unbounded `(0, 999999)`. -/
def expMap (experience : String) : ℤ × ℤ :=
  if experience == "0-1 years" then (5000, 25000)
  else if experience == "1-3 years" then (8000, 40000)
  else if experience == "3-5 years" then (12000, 60000)
  else if experience == "5-8 years" then (15000, 80000)
  else if experience == "8-12 years" then (20000, 100000)
  else if experience == "12+ years" then (25000, 150000)
  else (0, 999999)

/-- Experience-salary coherence signal (source lines 59–63). -/
def expSignal (entry : Form) : List Flag × ℤ :=
  let expMin := (expMap entry.experience).1
  let expMax := (expMap entry.experience).2
  let low : List Flag × ℤ :=
    if (entry.salary : ℚ) < (expMin : ℚ) * (1 / 2) then
      ([⟨"low_for_exp", "medium"⟩], -15)
    else ([], 0)
  let high : List Flag × ℤ :=
    if (expMax : ℚ) * (3 / 2) < (entry.salary : ℚ) then
      ([⟨"high_for_exp", "high"⟩], -30)
    else ([], 0)
  (low.1 ++ high.1, low.2 + high.2)

/-- Company consistency signal (source lines 65–70).  The JS test
`|sal - compMean| / compMean > 1` is stated multiplicatively as
`compMean < |sal - compMean|`, which agrees with the float semantics for
every nonnegative `compMean` (including `compMean = 0`, where JS produces
`Infinity > 1` for a nonzero salary and `NaN > 1 = false` for a zero one). -/
def companySignal (entry : Form) (existingSalaries : List SalaryRecord) :
    List Flag × ℤ :=
  let sameCompany :=
    existingSalaries.filter (fun s => lowerStr s.company == lowerStr entry.company)
  if 2 ≤ sameCompany.length then
    let compMean := listMean (sameCompany.map (·.salary))
    if compMean < |(entry.salary : ℚ) - compMean| then
      ([⟨"company_mismatch", "high"⟩], -25)
    else ([], 0)
  else ([], 0)

/-- Round-number suspicion (source lines 72–75): a silent penalty, no flag. -/
def roundSignal (entry : Form) : ℤ :=
  if 10000 ≤ entry.salary ∧ entry.salary % 10000 = 0 ∧ 50000 < entry.salary then -5
  else 0

/-- Exact duplicate test (source lines 78–82): case-insensitive title and
company, identical salary. -/
def isDuplicate (entry : Form) (existingSalaries : List SalaryRecord) : Bool :=
  existingSalaries.any (fun s =>
    lowerStr s.title == lowerStr entry.title &&
    lowerStr s.company == lowerStr entry.company &&
    s.salary == entry.salary)

/-- Duplicate signal (source line 83). -/
def dupSignal (entry : Form) (existingSalaries : List SalaryRecord) :
    List Flag × ℤ :=
  if isDuplicate entry existingSalaries then ([⟨"duplicate", "high"⟩], -50)
  else ([], 0)

/-- Status thresholds applied to a (clamped) trust score (source line 86). -/
def statusOf (trustScore : ℤ) : String :=
  if 70 ≤ trustScore then "auto_approved"
  else if 40 ≤ trustScore then "needs_review"
  else "flagged"

/-- Result of `detectOutliers`. -/
structure AnalysisResult where
  flags : List Flag
  trustScore : ℤ
  status : String
deriving DecidableEq

/-- Statistical outlier detection (source lines 40–89): five signals summed
against a starting score of 100, clamp to `[0, 100]`, provisional status. -/
def detectOutliers (entry : Form) (existingSalaries : List SalaryRecord) :
    AnalysisResult :=
  let z := industrySignal entry existingSalaries
  let e := expSignal entry
  let c := companySignal entry existingSalaries
  let r := roundSignal entry
  let d := dupSignal entry existingSalaries
  let trustScore := max 0 (min 100 (100 + z.2 + e.2 + c.2 + r + d.2))
  { flags := z.1 ++ e.1 ++ c.1 ++ d.1
    trustScore := trustScore
    status := statusOf trustScore }

/-- Count of completed optional friction fields (source line 460):
`filter(Boolean)` keeps exactly the nonempty strings. -/
def countCompleted (form : Form) : ℕ :=
  (([form.salaryType, form.contractType, form.recentRaise, form.companySize]).filter
    (fun s => s != "")).length

/-- Friction-field bonus (source lines 461–462): `+10` capped at 100 when at
least 3 fields are completed, then `+5` capped at 100 when at least 2 are. -/
def applyFriction (trustScore : ℤ) (completed : ℕ) : ℤ :=
  let t1 := if 3 ≤ completed then min 100 (trustScore + 10) else trustScore
  if 2 ≤ completed then min 100 (t1 + 5) else t1

/-- Status recomputation after the friction bonus (source lines 463–464):
note the source has no final `else` branch, so a score below 40 keeps the
status assigned by `detectOutliers`. -/
def finalizeStatus (trustScore : ℤ) (prev : String) : String :=
  if 70 ≤ trustScore then "auto_approved"
  else if 40 ≤ trustScore then "needs_review"
  else prev

/-- The final (post-bonus) trust score produced by `handleSubmit`. -/
def finalTrust (form : Form) (corpus : List SalaryRecord) : ℤ :=
  applyFriction (detectOutliers form corpus).trustScore (countCompleted form)

/-- The final status produced by `handleSubmit`. -/
def finalStatus (form : Form) (corpus : List SalaryRecord) : String :=
  finalizeStatus (finalTrust form corpus) (detectOutliers form corpus).status

/-- Prune a fingerprint window to timestamps younger than one hour
(`DeviceFingerprint`, source lines 22–27; times in milliseconds). -/
def pruneWindow (now : ℤ) (window : List ℤ) : List ℤ :=
  window.filter (fun t => decide (now - t < 3600000))

/-- `DeviceFingerprint.recordSubmission` (source lines 21–24): push `now`,
then prune. -/
def recordSubmission (now : ℤ) (window : List ℤ) : List ℤ :=
  pruneWindow now (window ++ [now])

/-- The side-effecting calls of a `handleSubmit` run, in program order. -/
inductive Event where
  | recordTimestamp
  | appendRecord
deriving DecidableEq

/-- Claim C2's ordering property on an event trace: every recorded-timestamp
event is preceded by a corpus-append event. -/
def timestampOnlyAfterAppend (events : List Event) : Prop :=
  ∀ i : Fin events.length, events.get i = Event.recordTimestamp →
    ∃ j : Fin events.length, (j : ℕ) < (i : ℕ) ∧ events.get j = Event.appendRecord

/-- The comparison analytics shown after a submission (source lines 475–483). -/
structure Comparison where
  avg : ℤ
  diff : ℤ
  count : ℕ
  percentile : ℤ
deriving DecidableEq

/-- `Math.round`. -/
def jsRound (q : ℚ) : ℤ := ⌊q + 1 / 2⌋

/-- Comparison analytics (source lines 475–483): computed against the corpus
records sharing the candidate's industry whose status is not `"flagged"`.
The source sorts before counting the entries at or below the candidate; the
count of a filter is unchanged by sorting, so the sort is omitted. -/
def computeComparison (form : Form) (salaries : List SalaryRecord) : Comparison :=
  let similar :=
    salaries.filter (fun s => s.industry == form.industry && s.status != "flagged")
  let sal : ℚ := (form.salary : ℚ)
  let avg : ℤ :=
    if similar.length ≠ 0 then jsRound (listMean (similar.map (·.salary)))
    else form.salary
  let diff : ℤ := jsRound ((sal - (avg : ℚ)) / (avg : ℚ) * 100)
  let below := (similar.filter (fun s => decide (s.salary ≤ form.salary))).length
  let percentile : ℤ :=
    if similar.length ≠ 0 then jsRound ((below : ℚ) / (similar.length : ℚ) * 100)
    else 50
  { avg := avg, diff := diff, count := similar.length, percentile := percentile }

/-- Modelled from the spec: claim C5 reads §4.4 step 6, which computes the
comparison analytics "against the mean of corpus records sharing the
candidate's industry, excluding rejected records".  Identical to
`computeComparison` except that the excluded status is `"rejected"`. -/
def computeComparisonSpec (form : Form) (salaries : List SalaryRecord) :
    Comparison :=
  let similar :=
    salaries.filter (fun s => s.industry == form.industry && s.status != "rejected")
  let sal : ℚ := (form.salary : ℚ)
  let avg : ℤ :=
    if similar.length ≠ 0 then jsRound (listMean (similar.map (·.salary)))
    else form.salary
  let diff : ℤ := jsRound ((sal - (avg : ℚ)) / (avg : ℚ) * 100)
  let below := (similar.filter (fun s => decide (s.salary ≤ form.salary))).length
  let percentile : ℤ :=
    if similar.length ≠ 0 then jsRound ((below : ℚ) / (similar.length : ℚ) * 100)
    else 50
  { avg := avg, diff := diff, count := similar.length, percentile := percentile }

/-- Modelled from the spec: claim C4's z-score divisor, the population
standard deviation "floored at 1", stated on squares
(`(max 1 σ) ^ 2 = max 1 σ ^ 2` for `σ ≥ 0`). -/
def specDivisorSq (variance : ℚ) : ℚ := max 1 variance

/-- The record appended to the corpus on a successful submission
(source lines 468–472).  `id` is `Date.now()`, passed in as `id`. -/
def newEntry (form : Form) (analysis : AnalysisResult) (id : ℤ) (today : String) :
    SalaryRecord :=
  { id := id, title := form.title, company := form.company,
    industry := form.industry, city := form.city, experience := form.experience,
    salary := form.salary, submitted := today, verified := false,
    trustScore := analysis.trustScore, status := analysis.status,
    flags := analysis.flags, flagCount := 0, salaryType := form.salaryType,
    contractType := form.contractType, recentRaise := form.recentRaise,
    companySize := form.companySize }

/-- The mutable state touched by a submission: the corpus and the
per-fingerprint submission window. -/
structure SubmitState where
  salaries : List SalaryRecord
  window : List ℤ
deriving DecidableEq

/-- Outcome of `handleSubmit` as seen by the submitter. -/
inductive SubmitResult where
  | invalid
  | rateLimited
  | accepted (analysis : AnalysisResult) (comparison : Comparison)
deriving DecidableEq

/-- `handleSubmit` (source lines 445–486).  Validation failure and a hard
rate-limit block abort before any corpus mutation (the rate check itself
stores the pruned window, as `getRecentCount` writes `_submissions` back).
On success the source calls `DeviceFingerprint.recordSubmission()` (line 466)
BEFORE `setSalaries` prepends the new entry (line 473); the event trace
records that program order.  The comparison analytics are computed from the
pre-append `salaries` closure variable. -/
def handleSubmit (now : ℤ) (today : String) (form : Form) (st : SubmitState) :
    SubmitState × List Event × SubmitResult :=
  if form.title == "" || form.company == "" || decide (form.salary ≤ 0) then
    (st, [], SubmitResult.invalid)
  else
    let pruned := pruneWindow now st.window
    if 5 ≤ pruned.length then
      ({ st with window := pruned }, [], SubmitResult.rateLimited)
    else
      let analysis : AnalysisResult :=
        { flags := (detectOutliers form st.salaries).flags
          trustScore := finalTrust form st.salaries
          status := finalStatus form st.salaries }
      let window := pruneWindow now (pruned ++ [now])
      (⟨newEntry form analysis now today :: st.salaries, window⟩,
        [Event.recordTimestamp, Event.appendRecord],
        SubmitResult.accepted analysis (computeComparison form st.salaries))

/-- Community-flag state update (`handleFlag` in the app root, lines 944–946):
increments `flagCount` of every record with the given id, no state check. -/
def handleFlag (salaries : List SalaryRecord) (id : ℤ) : List SalaryRecord :=
  salaries.map (fun s =>
    if s.id == id then { s with flagCount := s.flagCount + 1 } else s)

/-- `SalaryRow`'s guard (source line 192): the flag button is rendered only
for records whose status is `"auto_approved"` or falsy (`!s.status`). -/
def isFlaggable (s : SalaryRecord) : Bool :=
  s.status == "auto_approved" || s.status == ""

/-- The community-flag operation as exposed by the UI: `SalaryRow` renders
the flag button only when `isFlaggable`, and a click calls `handleFlag`.
On any other record the operation is not available, so the state is
unchanged. -/
def flagViaRow (salaries : List SalaryRecord) (id : ℤ) : List SalaryRecord :=
  match salaries.find? (fun s => s.id == id) with
  | some s => if isFlaggable s then handleFlag salaries id else salaries
  | none => salaries

/-- Moderator state update (`handleAction`, source lines 725–733): approve
sets `auto_approved`/`verified`/`max trustScore 80`; reject sets `rejected`;
any other action string leaves the record unchanged.  No state check here. -/
def handleAction (salaries : List SalaryRecord) (id : ℤ) (action : String) :
    List SalaryRecord :=
  salaries.map (fun s =>
    if s.id != id then s
    else if action == "approve" then
      { s with status := "auto_approved", verified := true,
               trustScore := max s.trustScore 80 }
    else if action == "reject" then { s with status := "rejected" }
    else s)

/-- `AdminPage`'s rendering guard (source lines 831–842): Approve and Reject
buttons exist only when the status is neither `"rejected"` nor
`"auto_approved"`; a Reject ("Remove entry") button additionally exists on an
`"auto_approved"` record with `flagCount > 0`. -/
def adminActionAllowed (s : SalaryRecord) (action : String) : Bool :=
  (s.status != "rejected" && s.status != "auto_approved" &&
      (action == "approve" || action == "reject")) ||
    (s.status == "auto_approved" && decide (0 < s.flagCount) && action == "reject")

/-- The moderation operation as exposed by the UI: `AdminPage` renders an
action button only when `adminActionAllowed`, and a click calls
`handleAction`. -/
def moderate (salaries : List SalaryRecord) (id : ℤ) (action : String) :
    List SalaryRecord :=
  match salaries.find? (fun s => s.id == id) with
  | some s =>
      if adminActionAllowed s action then handleAction salaries id action
      else salaries
  | none => salaries

/-- A representative corpus record (the first seeded entry of
`INITIAL_SALARIES`), used as a base for concrete instances. -/
def baseRec : SalaryRecord :=
  { id := 1, title := "Software Engineer", company := "Vodafone Egypt",
    industry := "Telecom", city := "Cairo", experience := "3-5 years",
    salary := 25000, submitted := "2026-02-27", verified := true,
    trustScore := 95, status := "auto_approved", flags := [], flagCount := 0,
    salaryType := "", contractType := "", recentRaise := "", companySize := "" }

/-- A plain valid submission form used for concrete instances. -/
def baseForm : Form :=
  { title := "Dev", company := "Acme", industry := "Technology",
    city := "Cairo", experience := "3-5 years", salary := 30000,
    salaryType := "", contractType := "", recentRaise := "", companySize := "" }

/-- A submission that exactly duplicates `baseRec` and completes three of the
four optional friction fields. -/
def c1form : Form :=
  { title := "Software Engineer", company := "Vodafone Egypt",
    industry := "Telecom", city := "Cairo", experience := "3-5 years",
    salary := 25000, salaryType := "net", contractType := "permanent",
    recentRaise := "yes", companySize := "" }

/-- A same-industry group of three records whose salary population variance is
`2/9`, strictly between 0 and 1. -/
def c4group : List SalaryRecord :=
  [{ baseRec with
      id := 31
      title := "T1"
      company := "A"
      industry := "Technology"
      salary := 10000 },
   { baseRec with
      id := 32
      title := "T2"
      company := "B"
      industry := "Technology"
      salary := 10000 },
   { baseRec with
      id := 33
      title := "T3"
      company := "D"
      industry := "Technology"
      salary := 10001 }]

/-- A candidate in the `c4group` industry sitting `8/3` above the group mean. -/
def c4form : Form :=
  { title := "X", company := "Z", industry := "Technology", city := "Cairo",
    experience := "3-5 years", salary := 10003, salaryType := "",
    contractType := "", recentRaise := "", companySize := "" }

/-- A rejected Technology record (moderator-rejected entries stay in the
corpus for audit). -/
def c5rejected : SalaryRecord :=
  { baseRec with
    id := 41
    title := "R1"
    company := "CoA"
    industry := "Technology"
    salary := 40000
    status := "rejected" }

/-- An approved Technology record. -/
def c5approved : SalaryRecord :=
  { baseRec with
    id := 42
    title := "R2"
    company := "CoB"
    industry := "Technology"
    salary := 20000
    status := "auto_approved" }

/-- A submission completing three of the four optional friction fields. -/
def c9form : Form :=
  { baseForm with
    salaryType := "net"
    contractType := "permanent"
    recentRaise := "yes" }

/-- A rejected record sitting in the corpus (for the moderation claims). -/
def rejRec : SalaryRecord :=
  { baseRec with
    id := 9
    status := "rejected" }

/-- A needs-review record (for the community-flag claim). -/
def reviewRec : SalaryRecord :=
  { baseRec with
    id := 7
    trustScore := 55
    status := "needs_review" }

/-! Basic lemmas about the individual signals and score arithmetic. -/

lemma industrySignal_pen_nonpos (entry : Form) (l : List SalaryRecord) :
    (industrySignal entry l).2 ≤ 0 := by
  simp only [industrySignal]
  split_ifs
  all_goals norm_num

lemma expSignal_pen_nonpos (entry : Form) : (expSignal entry).2 ≤ 0 := by
  simp only [expSignal]
  split_ifs
  all_goals norm_num

lemma companySignal_pen_nonpos (entry : Form) (l : List SalaryRecord) :
    (companySignal entry l).2 ≤ 0 := by
  simp only [companySignal]
  split_ifs
  all_goals norm_num

lemma roundSignal_nonpos (entry : Form) : roundSignal entry ≤ 0 := by
  simp only [roundSignal]
  split_ifs
  all_goals norm_num

lemma dupSignal_eq_of_dup (entry : Form) (l : List SalaryRecord)
    (h : isDuplicate entry l = true) :
    dupSignal entry l = ([⟨"duplicate", "high"⟩], -50) := by
  simp [dupSignal, h]

lemma detect_trustScore_def (entry : Form) (l : List SalaryRecord) :
    (detectOutliers entry l).trustScore =
      max 0 (min 100 (100 + (industrySignal entry l).2 + (expSignal entry).2 +
        (companySignal entry l).2 + roundSignal entry + (dupSignal entry l).2)) := rfl

lemma detect_status_def (entry : Form) (l : List SalaryRecord) :
    (detectOutliers entry l).status = statusOf (detectOutliers entry l).trustScore := rfl

lemma detect_bounds (entry : Form) (l : List SalaryRecord) :
    0 ≤ (detectOutliers entry l).trustScore ∧
      (detectOutliers entry l).trustScore ≤ 100 := by
  rw [detect_trustScore_def]
  omega

lemma applyFriction_le_add (trustScore : ℤ) (n : ℕ) :
    applyFriction trustScore n ≤ trustScore + 15 := by
  simp only [applyFriction]
  split_ifs
  all_goals omega

lemma le_applyFriction (trustScore : ℤ) (n : ℕ) (h : trustScore ≤ 100) :
    trustScore ≤ applyFriction trustScore n := by
  simp only [applyFriction]
  split_ifs
  all_goals omega

lemma applyFriction_bounds (trustScore : ℤ) (n : ℕ) (h0 : 0 ≤ trustScore)
    (h1 : trustScore ≤ 100) :
    0 ≤ applyFriction trustScore n ∧ applyFriction trustScore n ≤ 100 := by
  simp only [applyFriction]
  split_ifs
  all_goals omega

lemma statusOf_flagged (trustScore : ℤ) (h : trustScore ≤ 39) :
    statusOf trustScore = "flagged" := by
  simp only [statusOf]
  rw [if_neg (by omega), if_neg (by omega)]

/-! Which flag types each signal can emit. -/

lemma mem_detect_flags_iff (f : Flag) (entry : Form) (l : List SalaryRecord) :
    f ∈ (detectOutliers entry l).flags ↔
      f ∈ (industrySignal entry l).1 ∨ f ∈ (expSignal entry).1 ∨
        f ∈ (companySignal entry l).1 ∨ f ∈ (dupSignal entry l).1 := by
  show f ∈ _ ++ _ ++ _ ++ _ ↔ _
  simp [List.mem_append, or_assoc]

lemma industrySignal_flag_types (f : Flag) (entry : Form) (l : List SalaryRecord)
    (h : f ∈ (industrySignal entry l).1) :
    f.type = "extreme_outlier" ∨ f.type = "outlier" := by
  simp only [industrySignal] at h
  split_ifs at h
  all_goals simp_all

lemma expSignal_flag_types (f : Flag) (entry : Form)
    (h : f ∈ (expSignal entry).1) :
    f.type = "low_for_exp" ∨ f.type = "high_for_exp" := by
  simp only [expSignal] at h
  split_ifs at h
  all_goals try simp_all
  rcases h with rfl | rfl <;> simp

lemma companySignal_flag_types (f : Flag) (entry : Form) (l : List SalaryRecord)
    (h : f ∈ (companySignal entry l).1) : f.type = "company_mismatch" := by
  simp only [companySignal] at h
  split_ifs at h
  all_goals simp_all

lemma dupSignal_flag_types (f : Flag) (entry : Form) (l : List SalaryRecord)
    (h : f ∈ (dupSignal entry l).1) : f.type = "duplicate" := by
  simp only [dupSignal] at h
  split_ifs at h
  all_goals simp_all

lemma dup_mem_detect_flags (entry : Form) (l : List SalaryRecord)
    (h : isDuplicate entry l = true) :
    (⟨"duplicate", "high"⟩ : Flag) ∈ (detectOutliers entry l).flags := by
  rw [mem_detect_flags_iff]
  right; right; right
  rw [dupSignal_eq_of_dup entry l h]
  simp

lemma extreme_mem_detect_iff (entry : Form) (l : List SalaryRecord) :
    (⟨"extreme_outlier", "high"⟩ : Flag) ∈ (detectOutliers entry l).flags ↔
      (⟨"extreme_outlier", "high"⟩ : Flag) ∈ (industrySignal entry l).1 := by
  rw [mem_detect_flags_iff]
  constructor
  · rintro (h | h | h | h)
    · exact h
    · rcases expSignal_flag_types _ entry h with ht | ht <;> simp at ht
    · have ht := companySignal_flag_types _ entry l h
      simp at ht
    · have ht := dupSignal_flag_types _ entry l h
      simp at ht
  · exact fun h => Or.inl h

/-! Claim C1. -/

/-- C1 counterexample: the submission `c1form` duplicates the corpus record
`baseRec` in (case-insensitive) title, company and exact salary, and the
admission result does carry the `duplicate` flag — but with three completed
optional friction fields the FINAL trust score is 65, refuting the claim that
the final trustScore is at most 50. -/
theorem c1_counterexample :
    (handleSubmit 1000 "2026-03-01" c1form ⟨[baseRec], []⟩).2.2 =
      SubmitResult.accepted ⟨[⟨"duplicate", "high"⟩], 65, "needs_review"⟩
        ⟨25000, 0, 1, 100⟩ ∧
    ¬ finalTrust c1form [baseRec] ≤ 50 := by
  simp +decide [handleSubmit, pruneWindow, detectOutliers, industrySignal, expSignal,
    companySignal, roundSignal, dupSignal, isDuplicate, expMap, statusOf, stdDevSq,
    listMean, listVariance, finalTrust, finalStatus, applyFriction, countCompleted,
    finalizeStatus, computeComparison, jsRound, c1form, baseRec, lowerStr]
  norm_num [Int.floor_eq_iff]

/-- C1 (amended): a submission matching an existing corpus record in
case-insensitive title and company and exact salary always receives the
`duplicate` flag; the detector (pre-bonus) trust score is at most 50, and the
final trust score after the friction bonus is at most 65 (it can exceed 50 —
see the counterexample — because the bonus adds up to 15). -/
theorem duplicate_scoring (form : Form) (corpus : List SalaryRecord)
    (hdup : isDuplicate form corpus = true) :
    (⟨"duplicate", "high"⟩ : Flag) ∈ (detectOutliers form corpus).flags ∧
    (detectOutliers form corpus).trustScore ≤ 50 ∧
    finalTrust form corpus ≤ 65 := by
  have hz := industrySignal_pen_nonpos form corpus
  have he := expSignal_pen_nonpos form
  have hc := companySignal_pen_nonpos form corpus
  have hr := roundSignal_nonpos form
  have hd : (dupSignal form corpus).2 = -50 := by
    rw [dupSignal_eq_of_dup form corpus hdup]
  have hts := detect_trustScore_def form corpus
  have hb : (detectOutliers form corpus).trustScore ≤ 50 := by
    rw [hts, hd]
    omega
  refine ⟨dup_mem_detect_flags form corpus hdup, hb, ?_⟩
  have hf := applyFriction_le_add (detectOutliers form corpus).trustScore
    (countCompleted form)
  unfold finalTrust
  omega

/-- Witness for `duplicate_scoring` at the concrete duplicate `c1form`. -/
theorem duplicate_scoring_witness :
    (⟨"duplicate", "high"⟩ : Flag) ∈ (detectOutliers c1form [baseRec]).flags ∧
    (detectOutliers c1form [baseRec]).trustScore ≤ 50 ∧
    finalTrust c1form [baseRec] ≤ 65 :=
  duplicate_scoring c1form [baseRec] (by decide)

/-! Claim C7. -/

/-- C7: the trust score stays in `[0, 100]`: the anomaly detector clamps its
score, the friction bonus preserves the range, and a moderator action on a
corpus whose scores are in range keeps every score in range (approve writes
`max trustScore 80`). -/
theorem trust_bounds :
    (∀ entry existing, 0 ≤ (detectOutliers entry existing).trustScore ∧
      (detectOutliers entry existing).trustScore ≤ 100) ∧
    (∀ form corpus, 0 ≤ finalTrust form corpus ∧ finalTrust form corpus ≤ 100) ∧
    (∀ salaries id action,
      (∀ r ∈ salaries, 0 ≤ r.trustScore ∧ r.trustScore ≤ 100) →
      ∀ r ∈ handleAction salaries id action,
        0 ≤ r.trustScore ∧ r.trustScore ≤ 100) := by
  refine ⟨fun entry existing => detect_bounds entry existing, ?_, ?_⟩
  · intro form corpus
    exact applyFriction_bounds _ _ (detect_bounds form corpus).1
      (detect_bounds form corpus).2
  · intro salaries i a h r hr
    simp only [handleAction] at hr
    rw [List.mem_map] at hr
    obtain ⟨s, hs, rfl⟩ := hr
    have hb := h s hs
    split_ifs
    all_goals try simp
    all_goals omega

/-- Witness for `trust_bounds`: a moderator approve on the seeded record
(which already satisfies the bounds and keeps `max 95 80 = 95`). -/
theorem trust_bounds_witness :
    0 ≤ baseRec.trustScore ∧ baseRec.trustScore ≤ 100 :=
  trust_bounds.2.2 [baseRec] 1 "approve" (by decide) baseRec (by decide)

/-! Claim C8. -/

/-- C8: the final status is determined from the final (post-bonus) trust
score by the fixed thresholds: `≥ 70` auto_approved, `40–69` needs_review,
`≤ 39` flagged.  Below 40 the source keeps the detector's status, which is
necessarily `"flagged"` there because the bonus never lowers the score. -/
theorem status_thresholds (form : Form) (corpus : List SalaryRecord) :
    (70 ≤ finalTrust form corpus → finalStatus form corpus = "auto_approved") ∧
    (40 ≤ finalTrust form corpus → finalTrust form corpus ≤ 69 →
      finalStatus form corpus = "needs_review") ∧
    (finalTrust form corpus ≤ 39 → finalStatus form corpus = "flagged") := by
  refine ⟨fun h => ?_, fun h1 h2 => ?_, fun h => ?_⟩
  · simp only [finalStatus, finalizeStatus]
    rw [if_pos h]
  · simp only [finalStatus, finalizeStatus]
    rw [if_neg (by omega), if_pos h1]
  · simp only [finalStatus, finalizeStatus]
    rw [if_neg (by omega), if_neg (by omega), detect_status_def]
    apply statusOf_flagged
    have h100 := (detect_bounds form corpus).2
    have hque := le_applyFriction (detectOutliers form corpus).trustScore
      (countCompleted form) h100
    unfold finalTrust at h
    omega

/-- Witness for `status_thresholds`: the clean submission `baseForm` over an
empty corpus scores 100 and is auto-approved. -/
theorem status_thresholds_witness : finalStatus baseForm [] = "auto_approved" :=
  (status_thresholds baseForm []).1 (by
    simp +decide [finalTrust, applyFriction, countCompleted, detectOutliers,
      industrySignal, expSignal, companySignal, roundSignal, dupSignal,
      isDuplicate, expMap, baseForm, lowerStr]
    norm_num)

/-! Claim C9. -/

/-- C9: the friction bonus is a function of the count of completed optional
fields: exactly 2 completed fields add +5 (capped at 100); 3 or more apply
both bonuses, +10 then +5, each capped at 100 — +15 in total whenever the
caps do not bind. -/
theorem friction_bonus (form : Form) (corpus : List SalaryRecord) :
    (countCompleted form = 2 →
      finalTrust form corpus =
        min 100 ((detectOutliers form corpus).trustScore + 5)) ∧
    (3 ≤ countCompleted form →
      finalTrust form corpus =
        min 100 (min 100 ((detectOutliers form corpus).trustScore + 10) + 5)) ∧
    (3 ≤ countCompleted form → (detectOutliers form corpus).trustScore + 15 ≤ 100 →
      finalTrust form corpus = (detectOutliers form corpus).trustScore + 15) := by
  simp only [finalTrust, applyFriction]
  refine ⟨fun h2 => ?_, fun h3 => ?_, fun h3 hcap => ?_⟩
  · rw [if_pos (show 2 ≤ countCompleted form by omega),
      if_neg (show ¬ 3 ≤ countCompleted form by omega)]
  · rw [if_pos (show 2 ≤ countCompleted form by omega), if_pos h3]
  · rw [if_pos (show 2 ≤ countCompleted form by omega), if_pos h3]
    have h0 := (detect_bounds form corpus).1
    omega

/-- Witness for `friction_bonus`: `c9form` completes exactly three optional
fields, so both bonuses stack. -/
theorem friction_bonus_witness :
    finalTrust c9form [] =
      min 100 (min 100 ((detectOutliers c9form []).trustScore + 10) + 5) :=
  (friction_bonus c9form []).2.1 (by decide)

/-! Lemmas about the record-mutating operations. -/

lemma handleFlag_map_status (salaries : List SalaryRecord) (id : ℤ) :
    (handleFlag salaries id).map SalaryRecord.status =
      salaries.map SalaryRecord.status := by
  simp only [handleFlag]
  rw [List.map_map]
  apply List.map_congr_left
  intro s _
  simp only [Function.comp_apply]
  split_ifs <;> rfl

lemma handleFlag_map_trustScore (salaries : List SalaryRecord) (id : ℤ) :
    (handleFlag salaries id).map SalaryRecord.trustScore =
      salaries.map SalaryRecord.trustScore := by
  simp only [handleFlag]
  rw [List.map_map]
  apply List.map_congr_left
  intro s _
  simp only [Function.comp_apply]
  split_ifs <;> rfl

lemma handleFlag_map_flagCount (salaries : List SalaryRecord) (id : ℤ) :
    (handleFlag salaries id).map SalaryRecord.flagCount =
      salaries.map (fun r => if r.id = id then r.flagCount + 1 else r.flagCount) := by
  simp only [handleFlag]
  rw [List.map_map]
  apply List.map_congr_left
  intro s _
  simp only [Function.comp_apply]
  by_cases h : s.id = id <;> simp [h]

/-! Claim C10. -/

/-- C10: every record created by a submission starts with `verified = false`
and `flagCount = 0`; community flagging never touches `verified`; and a
moderator action sets `verified := true` exactly for an `approve` on the
targeted id, leaving `verified` unchanged in every other case (including
`reject`). -/
theorem verified_lifecycle :
    (∀ form analysis id today,
      (newEntry form analysis id today).verified = false ∧
      (newEntry form analysis id today).flagCount = 0) ∧
    (∀ salaries id, (handleFlag salaries id).map SalaryRecord.verified =
      salaries.map SalaryRecord.verified) ∧
    (∀ salaries id action,
      (handleAction salaries id action).map SalaryRecord.verified =
        salaries.map (fun r =>
          if r.id = id ∧ action = "approve" then true else r.verified)) := by
  refine ⟨fun _ _ _ _ => ⟨rfl, rfl⟩, ?_, ?_⟩
  · intro salaries i
    simp only [handleFlag]
    rw [List.map_map]
    apply List.map_congr_left
    intro s _
    simp only [Function.comp_apply]
    split_ifs <;> rfl
  · intro salaries i a
    simp only [handleAction]
    rw [List.map_map]
    apply List.map_congr_left
    intro s _
    simp only [Function.comp_apply]
    by_cases h1 : s.id = i <;> by_cases h2 : a = "approve" <;>
      simp [h1, h2] <;> try (split_ifs <;> rfl)

/-! Claim C3. -/

/-- C3: the community-flag operation (the flag button, rendered only on
`auto_approved` — or status-less — rows) never changes any record's status or
trust score; on a record whose status is not `auto_approved` (in particular
`needs_review`) it is unavailable and the state is unchanged; on an
`auto_approved` record it increments `flagCount` of the targeted id by
exactly 1. -/
theorem community_flag_behavior (salaries : List SalaryRecord) (id : ℤ)
    (s : SalaryRecord)
    (hfind : salaries.find? (fun r => r.id == id) = some s) :
    ((flagViaRow salaries id).map SalaryRecord.status =
      salaries.map SalaryRecord.status) ∧
    ((flagViaRow salaries id).map SalaryRecord.trustScore =
      salaries.map SalaryRecord.trustScore) ∧
    (s.status ≠ "auto_approved" → s.status ≠ "" →
      flagViaRow salaries id = salaries) ∧
    (s.status = "auto_approved" →
      (flagViaRow salaries id).map SalaryRecord.flagCount =
        salaries.map (fun r =>
          if r.id = id then r.flagCount + 1 else r.flagCount)) := by
  have hrow : flagViaRow salaries id =
      if isFlaggable s then handleFlag salaries id else salaries := by
    simp only [flagViaRow, hfind]
  by_cases hf : isFlaggable s = true
  · rw [hrow, if_pos hf]
    refine ⟨handleFlag_map_status salaries id,
      handleFlag_map_trustScore salaries id, fun h1 h2 => ?_,
      fun _ => handleFlag_map_flagCount salaries id⟩
    exfalso
    simp only [isFlaggable, Bool.or_eq_true, beq_iff_eq] at hf
    tauto
  · rw [hrow, if_neg hf]
    refine ⟨rfl, rfl, fun _ _ => rfl, fun hstat => ?_⟩
    exfalso
    simp only [isFlaggable, Bool.or_eq_true, beq_iff_eq] at hf
    exact hf (Or.inl hstat)

/-- Witness for `community_flag_behavior`: flagging the `needs_review` record
`reviewRec` leaves the corpus unchanged. -/
theorem community_flag_behavior_witness :
    flagViaRow [reviewRec] 7 = [reviewRec] :=
  (community_flag_behavior [reviewRec] 7 reviewRec (by decide)).2.2.1
    (by decide) (by decide)

/-! Claim C6. -/

/-- C6: the moderation state machine as exposed by the admin queue:
`rejected` is terminal (no action is available on a rejected record); an
action is available exactly when it is `approve` or `reject` on a record in
{flagged, needs_review}, or `reject` on an `auto_approved` record with at
least one community flag; an action that is not available leaves the corpus
unchanged. -/
theorem moderation_transitions (salaries : List SalaryRecord) (id : ℤ)
    (action : String) (s : SalaryRecord)
    (hfind : salaries.find? (fun r => r.id == id) = some s)
    (hstatus : s.status = "auto_approved" ∨ s.status = "needs_review" ∨
      s.status = "flagged" ∨ s.status = "rejected") :
    (s.status = "rejected" → moderate salaries id action = salaries) ∧
    (adminActionAllowed s action = true ↔
      ((action = "approve" ∨ action = "reject") ∧
        (s.status = "flagged" ∨ s.status = "needs_review")) ∨
      (action = "reject" ∧ s.status = "auto_approved" ∧ 1 ≤ s.flagCount)) ∧
    (adminActionAllowed s action = false → moderate salaries id action = salaries) := by
  have hmod : moderate salaries id action =
      if adminActionAllowed s action then handleAction salaries id action
      else salaries := by
    simp only [moderate, hfind]
  refine ⟨fun hrej => ?_, ?_, fun hfalse => ?_⟩
  · have hna : adminActionAllowed s action = false := by
      simp +decide [adminActionAllowed, hrej]
    rw [hmod, hna]
    simp
  · simp only [adminActionAllowed, Bool.or_eq_true, Bool.and_eq_true, bne_iff_ne,
      beq_iff_eq, decide_eq_true_eq]
    rcases hstatus with h | h | h | h <;> rw [h] <;> simp +decide <;> tauto
  · rw [hmod, hfalse]
    simp

/-- Witness for `moderation_transitions`: no action is available on the
rejected record `rejRec`, so moderation leaves it unchanged. -/
theorem moderation_transitions_witness :
    moderate [rejRec] 9 "approve" = [rejRec] :=
  (moderation_transitions [rejRec] 9 "approve" rejRec (by decide)
    (by decide)).1 (by decide)

/-! Claim C2. -/

/-- C2 counterexample: a concrete successful admission produces the event
trace `[recordTimestamp, appendRecord]` — the source records the submission
timestamp (line 466) BEFORE appending the new record to the corpus
(line 473) — so the trace violates the claimed "timestamp only after
append" ordering. -/
theorem c2_counterexample :
    (handleSubmit 0 "2026-03-01" baseForm ⟨[], []⟩).2.1 =
      [Event.recordTimestamp, Event.appendRecord] ∧
    ¬ timestampOnlyAfterAppend [Event.recordTimestamp, Event.appendRecord] := by
  constructor
  · decide
  · intro h
    rcases h ⟨0, by norm_num⟩ rfl with ⟨j, hj, _⟩
    exact Nat.not_lt_zero _ hj

/-- C2 (amended): the timestamp is recorded immediately BEFORE the append, in
that program order, and the two effects only occur together: a run records a
window timestamp iff it appends the new record, so at completion no window
timestamp exists without a corresponding persisted record.  Runs with no
events (validation failure or rate-limit block) leave the corpus unchanged. -/
theorem submit_commit_pairing (now : ℤ) (today : String) (form : Form)
    (st : SubmitState) :
    ((handleSubmit now today form st).2.1 = [] ∨
      (handleSubmit now today form st).2.1 =
        [Event.recordTimestamp, Event.appendRecord]) ∧
    (Event.recordTimestamp ∈ (handleSubmit now today form st).2.1 ↔
      Event.appendRecord ∈ (handleSubmit now today form st).2.1) ∧
    (Event.recordTimestamp ∈ (handleSubmit now today form st).2.1 →
      (handleSubmit now today form st).1.salaries =
        newEntry form ⟨(detectOutliers form st.salaries).flags,
          finalTrust form st.salaries, finalStatus form st.salaries⟩ now today
          :: st.salaries ∧
      now ∈ (handleSubmit now today form st).1.window) ∧
    ((handleSubmit now today form st).2.1 = [] →
      (handleSubmit now today form st).1.salaries = st.salaries) := by
  simp only [handleSubmit]
  split_ifs with h1 h2
  · exact ⟨Or.inl rfl, by simp, by simp, fun _ => rfl⟩
  · exact ⟨Or.inl rfl, by simp, by simp, fun _ => rfl⟩
  · refine ⟨Or.inr rfl, by simp, fun _ => ⟨rfl, ?_⟩, by simp⟩
    simp only [pruneWindow, List.mem_filter, List.mem_append, List.mem_singleton,
      decide_eq_true_eq]
    exact ⟨Or.inr trivial, by omega⟩

/-- Witness for `submit_commit_pairing`: the concrete successful run of the
counterexample pairs its recorded timestamp with the appended record. -/
theorem submit_commit_pairing_witness :
    (handleSubmit 0 "2026-03-01" baseForm ⟨[], []⟩).1.salaries =
      newEntry baseForm ⟨(detectOutliers baseForm []).flags, finalTrust baseForm [],
        finalStatus baseForm []⟩ 0 "2026-03-01" :: [] ∧
    (0 : ℤ) ∈ (handleSubmit 0 "2026-03-01" baseForm ⟨[], []⟩).1.window :=
  (submit_commit_pairing 0 "2026-03-01" baseForm ⟨[], []⟩).2.2.1 (by decide)

/-! Claim C5. -/

lemma computeComparison_filter_flagged (form : Form) (l : List SalaryRecord) :
    computeComparison form l =
      computeComparison form (l.filter (fun s => s.status != "flagged")) := by
  have hfl : (l.filter (fun s => s.status != "flagged")).filter
      (fun s => s.industry == form.industry && s.status != "flagged") =
      l.filter (fun s => s.industry == form.industry && s.status != "flagged") := by
    rw [List.filter_filter]
    apply List.filter_congr
    intro a _
    cases h1 : (a.industry == form.industry) <;>
      cases h2 : (a.status != "flagged") <;> simp [h1, h2]
  simp only [computeComparison]
  rw [hfl]

/-- C5 counterexample: with a rejected and an approved Technology record in
the corpus, the analytics returned by a successful submission average over
BOTH records (the source excludes only `"flagged"`), while analytics that
exclude rejected records — as the claim states — give a different average,
delta and percentile. -/
theorem c5_counterexample :
    (handleSubmit 5 "2026-03-01" baseForm ⟨[c5rejected, c5approved], []⟩).2.2 =
      SubmitResult.accepted ⟨[], 100, "auto_approved"⟩ ⟨30000, 0, 2, 50⟩ ∧
    computeComparisonSpec baseForm [c5rejected, c5approved] =
      ⟨20000, 50, 1, 100⟩ ∧
    (⟨30000, 0, 2, 50⟩ : Comparison) ≠ ⟨20000, 50, 1, 100⟩ := by
  refine ⟨?_, ?_, by decide⟩
  · simp +decide [handleSubmit, pruneWindow, detectOutliers, industrySignal,
      expSignal, companySignal, roundSignal, dupSignal, isDuplicate, expMap,
      statusOf, stdDevSq, listMean, listVariance, finalTrust, finalStatus,
      applyFriction, countCompleted, finalizeStatus, computeComparison, jsRound,
      baseForm, c5rejected, c5approved, baseRec, lowerStr]
    norm_num [Int.floor_eq_iff]
  · simp +decide [computeComparisonSpec, jsRound, listMean, baseForm,
      c5rejected, c5approved, baseRec, lowerStr]
    norm_num [Int.floor_eq_iff]

/-- C5 (amended): the analytics returned with a successful admission are the
pure function `computeComparison` of the pre-append corpus, whose reference
population is the records sharing the candidate's industry excluding FLAGGED
(not rejected) records; the only corpus change of the run is prepending the
new record. -/
theorem comparison_analytics (now : ℤ) (today : String) (form : Form)
    (st : SubmitState) (analysis : AnalysisResult) (comparison : Comparison)
    (h : (handleSubmit now today form st).2.2 =
      SubmitResult.accepted analysis comparison) :
    comparison = computeComparison form st.salaries ∧
    computeComparison form st.salaries =
      computeComparison form (st.salaries.filter (fun s => s.status != "flagged")) ∧
    (handleSubmit now today form st).1.salaries =
      newEntry form analysis now today :: st.salaries := by
  simp only [handleSubmit] at h ⊢
  split_ifs at h ⊢ with h1 h2
  have h' : SubmitResult.accepted
      ⟨(detectOutliers form st.salaries).flags, finalTrust form st.salaries,
        finalStatus form st.salaries⟩ (computeComparison form st.salaries) =
      SubmitResult.accepted analysis comparison := h
  rw [SubmitResult.accepted.injEq] at h'
  obtain ⟨ha, hc⟩ := h'
  refine ⟨hc.symm, computeComparison_filter_flagged form st.salaries, ?_⟩
  show newEntry form ⟨(detectOutliers form st.salaries).flags,
      finalTrust form st.salaries, finalStatus form st.salaries⟩ now today ::
      st.salaries = newEntry form analysis now today :: st.salaries
  rw [ha]

/-- Witness for `comparison_analytics` at a concrete successful run over a
one-record Technology corpus. -/
theorem comparison_analytics_witness :
    (⟨20000, 50, 1, 100⟩ : Comparison) = computeComparison baseForm [c5approved] :=
  (comparison_analytics 0 "2026-03-01" baseForm ⟨[c5approved], []⟩
    ⟨[], 100, "auto_approved"⟩ ⟨20000, 50, 1, 100⟩ (by
      simp +decide [handleSubmit, pruneWindow, detectOutliers, industrySignal,
        expSignal, companySignal, roundSignal, dupSignal, isDuplicate, expMap,
        statusOf, stdDevSq, listMean, listVariance, finalTrust, finalStatus,
        applyFriction, countCompleted, finalizeStatus, computeComparison, jsRound,
        baseForm, c5approved, baseRec, lowerStr]
      norm_num [Int.floor_eq_iff])).1

/-! Claim C4. -/

/-- C4 counterexample: the same-industry group `c4group` (3 Technology
records) has population variance `2/9`, i.e. a standard deviation strictly
between 0 and 1; the divisor actually used satisfies `divisor² = 2/9`, not
`max(1, σ)² = 1` as the claim states.  Observably, the candidate `c4form`
(at distance `8/3` from the mean, z ≈ 5.66 with the real σ but z ≈ 2.67 with
the claimed floored divisor) receives the `extreme_outlier` flag, which the
floored divisor would not produce. -/
theorem c4_counterexample :
    c4group.filter (fun s => s.industry == c4form.industry) = c4group ∧
    listVariance (c4group.map SalaryRecord.salary) = 2 / 9 ∧
    (0 : ℚ) < 2 / 9 ∧ (2 / 9 : ℚ) < 1 ∧
    stdDevSq (2 / 9) = 2 / 9 ∧
    specDivisorSq (2 / 9) = 1 ∧
    stdDevSq (listVariance (c4group.map SalaryRecord.salary)) ≠
      specDivisorSq (listVariance (c4group.map SalaryRecord.salary)) ∧
    (detectOutliers c4form c4group).flags = [⟨"extreme_outlier", "high"⟩] ∧
    ¬ (9 * specDivisorSq (listVariance (c4group.map SalaryRecord.salary)) <
        ((c4form.salary : ℚ) - listMean (c4group.map SalaryRecord.salary)) ^ 2) := by
  refine ⟨by decide, ?_⟩
  simp +decide [detectOutliers, industrySignal, expSignal, companySignal,
    roundSignal, dupSignal, isDuplicate, expMap, statusOf, stdDevSq, specDivisorSq,
    listMean, listVariance, c4form, c4group, baseRec, lowerStr]
  norm_num

/-- C4 (amended): whenever the same-industry group has at least 3 records and
a NONZERO population variance, the `extreme_outlier` flag fires iff the
squared deviation exceeds `9` times that variance — i.e. the z-score divisor
is the population standard deviation itself, NOT floored at 1 (the `|| 1`
fallback applies only when the standard deviation is exactly 0). -/
theorem industry_divisor_unfloored (entry : Form)
    (existingSalaries : List SalaryRecord)
    (hn : 3 ≤ (existingSalaries.filter
      (fun s => s.industry == entry.industry)).length)
    (hv : listVariance ((existingSalaries.filter
      (fun s => s.industry == entry.industry)).map (·.salary)) ≠ 0) :
    ((⟨"extreme_outlier", "high"⟩ : Flag) ∈
        (detectOutliers entry existingSalaries).flags ↔
      9 * listVariance ((existingSalaries.filter
          (fun s => s.industry == entry.industry)).map (·.salary)) <
        ((entry.salary : ℚ) - listMean ((existingSalaries.filter
          (fun s => s.industry == entry.industry)).map (·.salary))) ^ 2) := by
  rw [extreme_mem_detect_iff]
  simp only [industrySignal, stdDevSq, if_neg hv, if_pos hn]
  split_ifs with hcond hcond2
  · simp [hcond]
  · exact iff_of_false (by simp +decide) hcond
  · exact iff_of_false (by simp) hcond

/-- Witness for `industry_divisor_unfloored` at the concrete group `c4group`
(variance `2/9`) and candidate `c4form`: the unfloored test fires. -/
theorem industry_divisor_unfloored_witness :
    (⟨"extreme_outlier", "high"⟩ : Flag) ∈ (detectOutliers c4form c4group).flags :=
  (industry_divisor_unfloored c4form c4group (by decide) (by
      simp +decide [listVariance, listMean, c4group, baseRec, c4form]
      norm_num)).mpr (by
      simp +decide [listVariance, listMean, c4group, baseRec, c4form]
      norm_num)

end Aaref
